import Mathlib

/-!
Shallow embedding of the movie-search filtering core of
`GiancristofaroPaolaFinalProject.py` (the `search_data` function, lines
71-157), together with theorems settling the specification claims.

Modelling conventions:
* a pandas `DataFrame` row becomes a `Record`; a text cell that is `NaN`
  in the loaded frame becomes `none`;
* the six raw entry strings of the search window become a `Query`;
* Python `str.strip()` is modelled by `pyStrip`;
* Python `int(...)` is modelled by `pyInt` (optional sign followed by
  decimal digits; Python additionally accepts underscore digit
  separators and non-ASCII digits, which no claim exercises);
* Python `float(...)` is modelled by `pyFloat` over `ℚ` (optional sign,
  digits with an optional decimal point; Python additionally accepts
  exponent forms, `inf` and `nan`, which no claim exercises);
* `Series.str.contains(pat, case=False, na=False)` compiles `pat` as a
  regular expression (the pandas default `regex=True`) and runs
  `re.search` with `re.IGNORECASE`; `reSearch` models this for patterns
  built from literal characters and the `.` wildcard (which in Python
  matches every character except a newline).  Patterns using other
  regex metacharacters, or that are invalid regexes (Python raises
  `re.error` on those), are outside the modelled fragment.  Case
  folding is ASCII, which covers every string the claims mention.
-/

/-- Value of a list of decimal digit characters, most significant first. -/
def digitsVal (l : List Char) : Nat :=
  l.foldl (fun acc c => 10 * acc + (c.toNat - 48)) 0

/-- Parse a non-empty all-digit character list; `none` otherwise. -/
def parseDigits (l : List Char) : Option Nat :=
  if !l.isEmpty && l.all Char.isDigit then some (digitsVal l) else none

/-- Model of Python `int(s)` for an already-stripped string `s`:
an optional sign followed by one or more decimal digits. -/
def pyInt (s : String) : Option Int :=
  match s.toList with
  | '+' :: rest => (parseDigits rest).map (fun n => (n : Int))
  | '-' :: rest => (parseDigits rest).map (fun n => -(n : Int))
  | l => (parseDigits l).map (fun n => (n : Int))

/-- Unsigned part of Python `float(s)`: digits with an optional decimal
point, at least one digit overall (`"8"`, `"8.8"`, `".5"`, `"5."`).
The value `ip.fp` is the exact rational `(ip * 10 ^ |fp| + fp) / 10 ^ |fp|`. -/
def pyFloatBody (l : List Char) : Option ℚ :=
  match l.splitOn '.' with
  | [ip] => (parseDigits ip).map (fun n => mkRat n 1)
  | [ip, fp] =>
      if (!ip.isEmpty || !fp.isEmpty) && ip.all Char.isDigit && fp.all Char.isDigit then
        some (mkRat (digitsVal ip * 10 ^ fp.length + digitsVal fp) (10 ^ fp.length))
      else
        none
  | _ => none

/-- Model of Python `float(s)` for an already-stripped string `s`. -/
def pyFloat (s : String) : Option ℚ :=
  match s.toList with
  | '+' :: rest => pyFloatBody rest
  | '-' :: rest => (pyFloatBody rest).map (fun x => -x)
  | l => pyFloatBody l

/-- Model of Python `str.strip()`: drop whitespace from both ends.
The result is rebuilt with the `String.mk` constructor so that concrete
instances evaluate inside the kernel. -/
def pyStrip (s : String) : String :=
  ⟨((s.toList.dropWhile Char.isWhitespace).reverse.dropWhile Char.isWhitespace).reverse⟩

/-- One row of the movie DataFrame.  Text cells may be `NaN` (`none`);
a `NaN` year or rating fails every comparison, as in pandas. -/
structure Record where
  title : Option String
  genre : Option String
  year : Option Int
  rating : Option ℚ
  actors : Option String
  director : Option String
deriving DecidableEq

/-- The six raw entry strings of the search window, as typed by the user. -/
structure Query where
  title : String
  genre : String
  releaseDate : String
  rating : String
  actors : String
  director : String
deriving DecidableEq

/-- Outcome of `search_data`: the "Input Required" dialog for an
all-empty query, the "Search Error" dialog with the accumulated error
messages (joined with newlines at display time), or the filtered rows
handed to `show_results`. -/
inductive SearchResult where
  | emptyQuery : SearchResult
  | error : List String → SearchResult
  | results : List Record → SearchResult
deriving DecidableEq

/-- Error string of line 116 of the source. -/
def msgInvalidYearRange : String :=
  "Invalid year. Please enter a year between 1920 and 2022."

/-- Error string of line 122 of the source. -/
def msgInvalidYearInt : String :=
  "Release year must be an integer between 1920 and 2022."

/-- Error string of line 131 of the source. -/
def msgInvalidRatingRange : String :=
  "Rating should be between 1 and 10."

/-- Error string of line 137 of the source. -/
def msgInvalidRatingNum : String :=
  "Invalid rating. Please enter a number between 1 and 10."

/-- Error string of line 150 of the source. -/
def msgNoResults : String :=
  "No results found. Please adjust your search criteria."

/-- Match of one regex pattern character against one text character under
`re.IGNORECASE`: `.` matches everything but a newline, a literal character
matches case-insensitively. -/
def reCharMatch (p c : Char) : Bool :=
  (p == '.' && c != '\n') || p.toLower == c.toLower

/-- Does the pattern match a leading segment of the text? -/
def reMatchAt : List Char → List Char → Bool
  | [], _ => true
  | _ :: _, [] => false
  | p :: ps, c :: cs => reCharMatch p c && reMatchAt ps cs

/-- Model of Python `re.search` (with `re.IGNORECASE`) for the
literal-and-dot pattern fragment: the pattern matches starting at some
position of the text. -/
def reSearch (pat : List Char) : List Char → Bool
  | [] => reMatchAt pat []
  | c :: cs => reMatchAt pat (c :: cs) || reSearch pat cs

/-- Model of `Series.str.contains(pat, case=False, na=False)` applied to
one cell: a `NaN` cell never matches (`na=False`). -/
def containsFilter (pat : String) (attr : Option String) : Bool :=
  match attr with
  | some txt => reSearch pat.toList txt.toList
  | none => false

/-- One `if <query>: filtered_data = filtered_data[...str.contains(...)]`
block of the source (lines 102-103, 106-107, 140-141, 144-145). -/
def applyContains (s : String) (attr : Record → Option String) (d : List Record) : List Record :=
  if s == "" then d else d.filter (fun r => containsFilter s (attr r))

/-- The release-date block of the source (lines 110-122): parse, range-check,
filter on exact year equality, or record one error message. -/
def yearStep (s : String) (d : List Record) : List Record × List String :=
  if s == "" then (d, [])
  else
    match pyInt s with
    | some release_year =>
        if 1920 ≤ release_year ∧ release_year ≤ 2022 then
          (d.filter (fun r => r.year == some release_year), [])
        else
          (d, [msgInvalidYearRange])
    | none => (d, [msgInvalidYearInt])

/--`filtered_data["rating"] >= rating_num` at one row: a `NaN` rating
compares false in pandas. -/
def ratingGe (x : ℚ) (r : Record) : Bool :=
  match r.rating with
  | some v => decide (x ≤ v)
  | none => false

/-- The rating block of the source (lines 125-137): parse, range-check,
filter on rating at least the query value, or record one error message. -/
def ratingStep (s : String) (d : List Record) : List Record × List String :=
  if s == "" then (d, [])
  else
    match pyFloat s with
    | some rating_num =>
        if 1 ≤ rating_num ∧ rating_num ≤ 10 then
          (d.filter (fun r => ratingGe rating_num r), [])
        else
          (d, [msgInvalidRatingRange])
    | none => (d, [msgInvalidRatingNum])

/-- Model of `search_data` (source lines 71-157): strip the six entries,
reject an all-empty query, then filter progressively while accumulating
validation errors, and finally return either the error report or the
filtered rows.  GUI bookkeeping (button state, window teardown) is not
part of the filtering core. -/
def search_data (data : List Record) (q : Query) : SearchResult :=
  let title_query := (pyStrip q.title)
  let genre_query := (pyStrip q.genre)
  let release_date_query := (pyStrip q.releaseDate)
  let rating_query := (pyStrip q.rating)
  let actor_query := (pyStrip q.actors)
  let director_query := (pyStrip q.director)
  if title_query == "" && genre_query == "" && release_date_query == "" &&
     rating_query == "" && actor_query == "" && director_query == "" then
    SearchResult.emptyQuery
  else
    let d1 := applyContains title_query Record.title data
    let d2 := applyContains genre_query Record.genre d1
    let p3 := yearStep release_date_query d2
    let p4 := ratingStep rating_query p3.1
    let d5 := applyContains actor_query Record.actors p4.1
    let d6 := applyContains director_query Record.director d5
    let error_msgs := p3.2 ++ p4.2
    if !error_msgs.isEmpty || d6.isEmpty then
      SearchResult.error (if error_msgs.isEmpty then [msgNoResults] else error_msgs)
    else
      SearchResult.results d6

/-- The `not any([...])` check of source line 91 over the stripped entries. -/
def allEmpty (q : Query) : Bool :=
  (pyStrip q.title) == "" && (pyStrip q.genre) == "" && (pyStrip q.releaseDate) == "" &&
  (pyStrip q.rating) == "" && (pyStrip q.actors) == "" && (pyStrip q.director) == ""

/-- Error messages contributed by the release-date block alone. -/
def yearErrs (s : String) : List String :=
  if s == "" then []
  else
    match pyInt s with
    | some release_year =>
        if 1920 ≤ release_year ∧ release_year ≤ 2022 then []
        else [msgInvalidYearRange]
    | none => [msgInvalidYearInt]

/-- Error messages contributed by the rating block alone. -/
def ratingErrs (s : String) : List String :=
  if s == "" then []
  else
    match pyFloat s with
    | some rating_num =>
        if 1 ≤ rating_num ∧ rating_num ≤ 10 then []
        else [msgInvalidRatingRange]
    | none => [msgInvalidRatingNum]

/-- Data component of the progressive filtering pipeline, in source order. -/
def applyFilters (data : List Record) (q : Query) : List Record :=
  let d1 := applyContains (pyStrip q.title) Record.title data
  let d2 := applyContains (pyStrip q.genre) Record.genre d1
  let d3 := (yearStep (pyStrip q.releaseDate) d2).1
  let d4 := (ratingStep (pyStrip q.rating) d3).1
  let d5 := applyContains (pyStrip q.actors) Record.actors d4
  applyContains (pyStrip q.director) Record.director d5

/-- Does `p` occur at the head of `t` (exact character equality)? -/
def contigAt : List Char → List Char → Bool
  | [], _ => true
  | _ :: _, [] => false
  | p :: ps, c :: cs => p == c && contigAt ps cs

/-- Does `p` occur contiguously somewhere in `t`? -/
def contigIn (p : List Char) : List Char → Bool
  | [] => contigAt p []
  | c :: cs => contigAt p (c :: cs) || contigIn p cs

/-- Stated from the spec: "matching is case-insensitive substring
containment against the corresponding Record attribute". -/
def isSubstrCI (q s : String) : Bool :=
  contigIn (q.toList.map Char.toLower) (s.toList.map Char.toLower)

/-- Stated from the spec: "the conjunction (logical AND) of all active
predicates", one combined per-record test (an empty field contributes a
vacuous conjunct; for a well-formed query the numeric fields parse). -/
def specPred (q : Query) (r : Record) : Bool :=
  ((pyStrip q.title) == "" || containsFilter (pyStrip q.title) r.title) &&
  ((pyStrip q.genre) == "" || containsFilter (pyStrip q.genre) r.genre) &&
  ((pyStrip q.releaseDate) == "" ||
    (match pyInt (pyStrip q.releaseDate) with
     | some y => r.year == some y
     | none => false)) &&
  ((pyStrip q.rating) == "" ||
    (match pyFloat (pyStrip q.rating) with
     | some x => ratingGe x r
     | none => false)) &&
  ((pyStrip q.actors) == "" || containsFilter (pyStrip q.actors) r.actors) &&
  ((pyStrip q.director) == "" || containsFilter (pyStrip q.director) r.director)

/-- The one-record dataset of the spec's concrete scenarios. -/
def inception : Record :=
  { title := some "Inception", genre := some "Sci-Fi", year := some 2010,
    rating := some (mkRat 44 5), actors := some "Leonardo DiCaprio",
    director := some "Christopher Nolan" }

/-- A query with every entry left blank. -/
def blankQuery : Query :=
  { title := "", genre := "", releaseDate := "", rating := "",
    actors := "", director := "" }


theorem yearStep_snd (s : String) (d : List Record) : (yearStep s d).2 = yearErrs s := by
  unfold yearStep yearErrs
  split
  · rfl
  · cases hp : pyInt s <;> simp only
    split <;> rfl

theorem ratingStep_snd (s : String) (d : List Record) : (ratingStep s d).2 = ratingErrs s := by
  unfold ratingStep ratingErrs
  split
  · rfl
  · cases hp : pyFloat s <;> simp only
    split <;> rfl

theorem search_data_of_allEmpty (d : List Record) (q : Query) (h : allEmpty q = true) :
    search_data d q = SearchResult.emptyQuery := by
  have hc : ((pyStrip q.title) == "" && (pyStrip q.genre) == "" &&
      (pyStrip q.releaseDate) == "" && (pyStrip q.rating) == "" &&
      (pyStrip q.actors) == "" && (pyStrip q.director) == "") = allEmpty q := rfl
  unfold search_data
  simp only [hc, h, if_pos]

theorem search_data_eq (d : List Record) (q : Query) (h : allEmpty q = false) :
    search_data d q =
      (if !(yearErrs (pyStrip q.releaseDate) ++ ratingErrs (pyStrip q.rating)).isEmpty ||
          (applyFilters d q).isEmpty then
         SearchResult.error
           (if (yearErrs (pyStrip q.releaseDate) ++ ratingErrs (pyStrip q.rating)).isEmpty
            then [msgNoResults]
            else yearErrs (pyStrip q.releaseDate) ++ ratingErrs (pyStrip q.rating))
       else
         SearchResult.results (applyFilters d q)) := by
  have hc : ((pyStrip q.title) == "" && (pyStrip q.genre) == "" &&
      (pyStrip q.releaseDate) == "" && (pyStrip q.rating) == "" &&
      (pyStrip q.actors) == "" && (pyStrip q.director) == "") = allEmpty q := rfl
  unfold search_data applyFilters
  simp only [hc, h, Bool.false_eq_true, if_false, yearStep_snd, ratingStep_snd]

theorem applyContains_eq_filter (s : String) (attr : Record → Option String) (d : List Record) :
    applyContains s attr d = d.filter (fun r => s == "" || containsFilter s (attr r)) := by
  unfold applyContains
  cases hs : (s == "") with
  | true => simp
  | false => simp

theorem yearStep_fst_noerr (s : String) (d : List Record) (h : yearErrs s = []) :
    (yearStep s d).1 = d.filter (fun r => s == "" ||
      (match pyInt s with | some y => r.year == some y | none => false)) := by
  unfold yearErrs at h
  unfold yearStep
  cases hs : (s == "") with
  | true => simp
  | false =>
      rw [hs] at h
      simp only [Bool.false_eq_true, if_false] at h ⊢
      split at h
      next o y hy =>
        try simp only [hy]
        split at h
        next hc => rw [if_pos hc]; simp
        next hc => cases h
      next o hy =>
        try simp only [hy]
        cases h

theorem ratingStep_fst_noerr (s : String) (d : List Record) (h : ratingErrs s = []) :
    (ratingStep s d).1 = d.filter (fun r => s == "" ||
      (match pyFloat s with | some x => ratingGe x r | none => false)) := by
  unfold ratingErrs at h
  unfold ratingStep
  cases hs : (s == "") with
  | true => simp
  | false =>
      rw [hs] at h
      simp only [Bool.false_eq_true, if_false] at h ⊢
      split at h
      next o x hx =>
        try simp only [hx]
        split at h
        next hc => rw [if_pos hc]; simp
        next hc => cases h
      next o hx =>
        try simp only [hx]
        cases h

theorem applyFilters_eq_filter (d : List Record) (q : Query)
    (hy : yearErrs (pyStrip q.releaseDate) = [])
    (hr : ratingErrs (pyStrip q.rating) = []) :
    applyFilters d q = d.filter (specPred q) := by
  unfold applyFilters
  rw [applyContains_eq_filter, applyContains_eq_filter,
      yearStep_fst_noerr _ _ hy, ratingStep_fst_noerr _ _ hr,
      applyContains_eq_filter, applyContains_eq_filter]
  simp only [List.filter_filter]
  refine List.filter_congr ?_
  intro r _
  unfold specPred
  simp [Bool.and_assoc, Bool.and_comm, Bool.and_left_comm]

theorem yearErrs_nil : yearErrs "" = [] := by simp [yearErrs]

theorem ratingErrs_nil : ratingErrs "" = [] := by simp [ratingErrs]

theorem yearErrs_cases (s : String) :
    yearErrs s = [] ∨ yearErrs s = [msgInvalidYearRange] ∨ yearErrs s = [msgInvalidYearInt] := by
  unfold yearErrs
  split
  · exact Or.inl rfl
  · split
    · split
      · exact Or.inl rfl
      · exact Or.inr (Or.inl rfl)
    · exact Or.inr (Or.inr rfl)

theorem ratingErrs_cases (s : String) :
    ratingErrs s = [] ∨ ratingErrs s = [msgInvalidRatingRange] ∨ ratingErrs s = [msgInvalidRatingNum] := by
  unfold ratingErrs
  split
  · exact Or.inl rfl
  · split
    · split
      · exact Or.inl rfl
      · exact Or.inr (Or.inl rfl)
    · exact Or.inr (Or.inr rfl)

theorem ne_empty_of_yearErrs {s : String} (h : yearErrs s ≠ []) : s ≠ "" := by
  intro e
  exact h (e ▸ yearErrs_nil)

theorem ne_empty_of_ratingErrs {s : String} (h : ratingErrs s ≠ []) : s ≠ "" := by
  intro e
  exact h (e ▸ ratingErrs_nil)

theorem allEmpty_eq_false_of_year {q : Query} (h : pyStrip q.releaseDate ≠ "") :
    allEmpty q = false := by
  simp [allEmpty, h]

theorem allEmpty_eq_false_of_rating {q : Query} (h : pyStrip q.rating ≠ "") :
    allEmpty q = false := by
  simp [allEmpty, h]

theorem noResults_notin_errs (s t : String) :
    msgNoResults ∉ yearErrs s ++ ratingErrs t := by
  rcases yearErrs_cases s with h | h | h <;>
    rcases ratingErrs_cases t with h2 | h2 | h2 <;>
      simp [h, h2, msgNoResults, msgInvalidYearRange, msgInvalidYearInt,
        msgInvalidRatingRange, msgInvalidRatingNum]

theorem allEmpty_eq_false_of_errs {q : Query}
    (h : yearErrs (pyStrip q.releaseDate) ++ ratingErrs (pyStrip q.rating) ≠ []) :
    allEmpty q = false := by
  by_cases hy : yearErrs (pyStrip q.releaseDate) = []
  · have hr : ratingErrs (pyStrip q.rating) ≠ [] := by
      intro hr0
      exact h (by rw [hy, hr0]; rfl)
    exact allEmpty_eq_false_of_rating (ne_empty_of_ratingErrs hr)
  · exact allEmpty_eq_false_of_year (ne_empty_of_yearErrs hy)

/-- Query of the spec scenario `{year:"1800"}`. -/
def qYear1800 : Query := { blankQuery with releaseDate := "1800" }

/-- Query of the spec scenario `{year:"2010", rating:"8"}`. -/
def qYearRating : Query := { blankQuery with releaseDate := "2010", rating := "8" }

/-- Query of the spec scenario `{title:"Avatar"}`. -/
def qAvatar : Query := { blankQuery with title := "Avatar" }

/-- Title query consisting of the single regex metacharacter `.`. -/
def qTitleDot : Query := { blankQuery with title := "." }

/-- Query with an out-of-range year and a non-numeric rating. -/
def qBothBad : Query := { blankQuery with releaseDate := "1800", rating := "abc" }

/-- C1: whenever the year and/or rating field accumulates a validation
error, `search_data` returns exactly the joined list of accumulated
validation errors and never a dataset, partial or otherwise. -/
theorem errors_suppress_results (d : List Record) (q : Query)
    (h : yearErrs (pyStrip q.releaseDate) ++ ratingErrs (pyStrip q.rating) ≠ []) :
    search_data d q =
      SearchResult.error (yearErrs (pyStrip q.releaseDate) ++ ratingErrs (pyStrip q.rating)) ∧
    ∀ rs : List Record, search_data d q ≠ SearchResult.results rs := by
  have ha := allEmpty_eq_false_of_errs h
  have he := List.isEmpty_eq_false.mpr h
  rw [search_data_eq d q ha]
  simp only [he, Bool.not_false, Bool.true_or, if_true, Bool.false_eq_true, if_false]
  exact ⟨trivial, fun rs hc => SearchResult.noConfusion hc⟩

/-- Witness for C1 at the dataset `[inception]` and the query with year
field `"1800"`: the result is the error report alone. -/
theorem errors_suppress_results_witness :
    search_data [inception] qYear1800 =
      SearchResult.error (yearErrs (pyStrip qYear1800.releaseDate) ++
        ratingErrs (pyStrip qYear1800.rating)) :=
  (errors_suppress_results [inception] qYear1800 (by decide)).1

/-- C5: a query whose six entries are all empty or whitespace-only is
rejected up front with the single "supply at least one field" outcome,
for every dataset, with no validation error and no filtering. -/
theorem empty_query_short_circuits (d : List Record) (q : Query)
    (h : allEmpty q = true) :
    search_data d q = SearchResult.emptyQuery ∧
    (∀ msgs, search_data d q ≠ SearchResult.error msgs) ∧
    (∀ rs, search_data d q ≠ SearchResult.results rs) := by
  have := search_data_of_allEmpty d q h
  refine ⟨this, ?_, ?_⟩
  · intro msgs hc
    rw [this] at hc
    exact SearchResult.noConfusion hc
  · intro rs hc
    rw [this] at hc
    exact SearchResult.noConfusion hc

/-- Witness for C5 at a whitespace-only query over `[inception]`. -/
theorem empty_query_short_circuits_witness :
    search_data [inception]
      { title := "  ", genre := "", releaseDate := " ", rating := "",
        actors := "", director := "\t" } = SearchResult.emptyQuery :=
  (empty_query_short_circuits [inception] _ (by decide)).1

theorem pyInt_blank : pyInt "" = none := rfl

theorem pyFloat_blank : pyFloat "" = none := rfl

/-- C2: a non-empty year field that parses to an integer in [1920, 2022]
filters by exact year equality (a record survives iff its year equals the
parsed value); a non-parsing or out-of-range year leaves the data
untouched by the year predicate and contributes an InvalidYear error;
and on `[inception]` the query with year `"1800"` yields InvalidYear only. -/
theorem year_field_semantics :
    (∀ (d : List Record) (s : String) (y : Int),
        pyInt s = some y → 1920 ≤ y → y ≤ 2022 →
        yearStep s d = (d.filter (fun r => r.year == some y), []) ∧
        ∀ r, r ∈ (yearStep s d).1 ↔ r ∈ d ∧ r.year = some y) ∧
    (∀ (d : List Record) (s : String),
        s ≠ "" → (pyInt s = none ∨ ∃ y, pyInt s = some y ∧ ¬(1920 ≤ y ∧ y ≤ 2022)) →
        (yearStep s d).1 = d ∧ yearErrs s ≠ []) ∧
    search_data [inception] qYear1800 = SearchResult.error [msgInvalidYearRange] := by
  refine ⟨?_, ?_, by decide⟩
  · intro d s y hp h1 h2
    have hs : (s == "") = false := by
      refine beq_eq_false_iff_ne.mpr ?_
      intro e
      rw [e, pyInt_blank] at hp
      exact Option.noConfusion hp
    have heq : yearStep s d = (d.filter (fun r => r.year == some y), []) := by
      unfold yearStep
      simp only [hs, Bool.false_eq_true, if_false, hp]
      rw [if_pos ⟨h1, h2⟩]
    refine ⟨heq, ?_⟩
    intro r
    rw [heq]
    simp [List.mem_filter]
  · intro d s hs hbad
    have hs' : (s == "") = false := beq_eq_false_iff_ne.mpr hs
    unfold yearStep yearErrs
    simp only [hs', Bool.false_eq_true, if_false]
    rcases hbad with hnone | ⟨y, hy, hrange⟩
    · rw [hnone]
      exact ⟨rfl, by simp⟩
    · rw [hy]
      dsimp only
      rw [if_neg hrange, if_neg hrange]
      exact ⟨rfl, by simp⟩

/-- Witness for C2 at the year string `"2010"` over `[inception]`. -/
theorem year_field_semantics_witness :
    yearStep "2010" [inception] = ([inception].filter (fun r => r.year == some 2010), []) :=
  (year_field_semantics.1 [inception] "2010" 2010 (by decide) (by decide) (by decide)).1

/-- C3: a non-empty rating field that parses to a rational in [1, 10]
filters by a lower bound (a record survives iff its rating is at least the
parsed value, not equal to it); a non-parsing or out-of-range rating leaves
the data untouched by the rating predicate and contributes an InvalidRating
error; and on `[inception]` the query `{year:"2010", rating:"8"}` returns
the single record. -/
theorem rating_field_semantics :
    (∀ (d : List Record) (s : String) (x : ℚ),
        pyFloat s = some x → 1 ≤ x → x ≤ 10 →
        ratingStep s d = (d.filter (fun r => ratingGe x r), []) ∧
        ∀ r, r ∈ (ratingStep s d).1 ↔ r ∈ d ∧ ∃ v, r.rating = some v ∧ x ≤ v) ∧
    (∀ (d : List Record) (s : String),
        s ≠ "" → (pyFloat s = none ∨ ∃ x, pyFloat s = some x ∧ ¬(1 ≤ x ∧ x ≤ 10)) →
        (ratingStep s d).1 = d ∧ ratingErrs s ≠ []) ∧
    search_data [inception] qYearRating = SearchResult.results [inception] := by
  refine ⟨?_, ?_, by decide⟩
  · intro d s x hp h1 h2
    have hs : (s == "") = false := by
      refine beq_eq_false_iff_ne.mpr ?_
      intro e
      rw [e, pyFloat_blank] at hp
      exact Option.noConfusion hp
    have heq : ratingStep s d = (d.filter (fun r => ratingGe x r), []) := by
      unfold ratingStep
      simp only [hs, Bool.false_eq_true, if_false, hp]
      rw [if_pos ⟨h1, h2⟩]
    refine ⟨heq, ?_⟩
    intro r
    rw [heq]
    simp only [List.mem_filter]
    constructor
    · rintro ⟨hm, hg⟩
      refine ⟨hm, ?_⟩
      unfold ratingGe at hg
      cases hr : r.rating with
      | none => rw [hr] at hg; exact Bool.noConfusion hg
      | some v =>
          rw [hr] at hg
          exact ⟨v, rfl, of_decide_eq_true hg⟩
    · rintro ⟨hm, v, hv, hle⟩
      refine ⟨hm, ?_⟩
      unfold ratingGe
      rw [hv]
      exact decide_eq_true hle
  · intro d s hs hbad
    have hs' : (s == "") = false := beq_eq_false_iff_ne.mpr hs
    unfold ratingStep ratingErrs
    simp only [hs', Bool.false_eq_true, if_false]
    rcases hbad with hnone | ⟨x, hx, hrange⟩
    · rw [hnone]
      exact ⟨rfl, by simp⟩
    · rw [hx]
      dsimp only
      rw [if_neg hrange, if_neg hrange]
      exact ⟨rfl, by simp⟩

/-- Witness for C3 at the rating string `"8"` over `[inception]`:
the record with rating 8.8 = 44/5 survives the lower-bound filter. -/
theorem rating_field_semantics_witness :
    ratingStep "8" [inception] = ([inception].filter (fun r => ratingGe (mkRat 8 1) r), []) :=
  (rating_field_semantics.1 [inception] "8" (mkRat 8 1) (by decide) (by decide) (by decide)).1

/-- C4 (divergence exhibit): pandas `str.contains` keeps its default
`regex=True`, so a text query is compiled as a regular expression.  The
title query `"."` therefore matches the record titled "Inception" even
though `"."` never occurs as a case-insensitive substring of "Inception";
on a metacharacter-free query such as `"matrix"` the regex search and
substring containment agree, matching "The Matrix Reloaded".  The code's
own comments ("include only titles containing the query string") and the
spec both describe plain substring containment. -/
theorem title_dot_regex_divergence :
    search_data [inception] qTitleDot = SearchResult.results [inception] ∧
    isSubstrCI "." "Inception" = false ∧
    containsFilter "matrix" (some "The Matrix Reloaded") = true ∧
    isSubstrCI "matrix" "The Matrix Reloaded" = true :=
  ⟨by decide, by decide, by decide, by decide⟩

/-- C6: when the year field and the rating field are both malformed, the
two validation errors are both produced — one InvalidYear message and one
InvalidRating message, joined into a single report in field order — and
evaluation runs to completion over every field. -/
theorem errors_accumulate (d : List Record) (q : Query)
    (hy : yearErrs (pyStrip q.releaseDate) ≠ [])
    (hr : ratingErrs (pyStrip q.rating) ≠ []) :
    ∃ my mr,
      (my = msgInvalidYearRange ∨ my = msgInvalidYearInt) ∧
      (mr = msgInvalidRatingRange ∨ mr = msgInvalidRatingNum) ∧
      yearErrs (pyStrip q.releaseDate) = [my] ∧
      ratingErrs (pyStrip q.rating) = [mr] ∧
      search_data d q = SearchResult.error [my, mr] := by
  obtain ⟨my, hmy, hy1⟩ :
      ∃ my, (my = msgInvalidYearRange ∨ my = msgInvalidYearInt) ∧
        yearErrs (pyStrip q.releaseDate) = [my] := by
    rcases yearErrs_cases (pyStrip q.releaseDate) with h | h | h
    · exact absurd h hy
    · exact ⟨msgInvalidYearRange, Or.inl rfl, h⟩
    · exact ⟨msgInvalidYearInt, Or.inr rfl, h⟩
  obtain ⟨mr, hmr, hr1⟩ :
      ∃ mr, (mr = msgInvalidRatingRange ∨ mr = msgInvalidRatingNum) ∧
        ratingErrs (pyStrip q.rating) = [mr] := by
    rcases ratingErrs_cases (pyStrip q.rating) with h | h | h
    · exact absurd h hr
    · exact ⟨msgInvalidRatingRange, Or.inl rfl, h⟩
    · exact ⟨msgInvalidRatingNum, Or.inr rfl, h⟩
  refine ⟨my, mr, hmy, hmr, hy1, hr1, ?_⟩
  have ha := allEmpty_eq_false_of_year (ne_empty_of_yearErrs hy)
  rw [search_data_eq d q ha]
  simp [hy1, hr1]

/-- Witness for C6 over `[inception]` with year `"1800"` (out of range)
and rating `"abc"` (not a number): both messages are reported together. -/
theorem errors_accumulate_witness :
    ∃ my mr,
      (my = msgInvalidYearRange ∨ my = msgInvalidYearInt) ∧
      (mr = msgInvalidRatingRange ∨ mr = msgInvalidRatingNum) ∧
      yearErrs (pyStrip qBothBad.releaseDate) = [my] ∧
      ratingErrs (pyStrip qBothBad.rating) = [mr] ∧
      search_data [inception] qBothBad = SearchResult.error [my, mr] :=
  errors_accumulate [inception] qBothBad (by decide) (by decide)

/-- C7: the NoResults report appears exactly when the query is not
all-empty, no validation error was accumulated, and the conjunction of
the active predicates matches zero records; and whenever the NoResults
message appears in an error report it is the report's only message, so it
is never reported together with a validation error (the EmptyQuery
outcome is a distinct constructor altogether). -/
theorem noResults_characterization (d : List Record) (q : Query) :
    (search_data d q = SearchResult.error [msgNoResults] ↔
      allEmpty q = false ∧ yearErrs (pyStrip q.releaseDate) = [] ∧
      ratingErrs (pyStrip q.rating) = [] ∧ applyFilters d q = []) ∧
    (∀ msgs, search_data d q = SearchResult.error msgs → msgNoResults ∈ msgs →
      msgs = [msgNoResults]) := by
  cases ha : allEmpty q with
  | true =>
      have h0 := search_data_of_allEmpty d q ha
      constructor
      · constructor
        · intro hc
          rw [h0] at hc
          exact SearchResult.noConfusion hc
        · rintro ⟨hfalse, -, -, -⟩
          exact Bool.noConfusion hfalse
      · intro msgs hc
        rw [h0] at hc
        exact SearchResult.noConfusion hc
  | false =>
      by_cases he : yearErrs (pyStrip q.releaseDate) ++ ratingErrs (pyStrip q.rating) = []
      · obtain ⟨hy, hr⟩ := List.append_eq_nil.mp he
        by_cases hf : applyFilters d q = []
        · have hres : search_data d q = SearchResult.error [msgNoResults] := by
            rw [search_data_eq d q ha]
            simp [hy, hr, hf]
          constructor
          · constructor
            · intro _
              exact ⟨rfl, hy, hr, hf⟩
            · intro _
              exact hres
          · intro msgs hc hmem
            rw [hres] at hc
            injection hc with h1
            exact h1.symm
        · have hf' : (applyFilters d q).isEmpty = false := List.isEmpty_eq_false.mpr hf
          have hres : search_data d q = SearchResult.results (applyFilters d q) := by
            rw [search_data_eq d q ha]
            simp [hy, hr, hf']
          constructor
          · constructor
            · intro hc
              rw [hres] at hc
              exact SearchResult.noConfusion hc
            · rintro ⟨-, -, -, hf0⟩
              exact absurd hf0 hf
          · intro msgs hc
            rw [hres] at hc
            exact SearchResult.noConfusion hc
      · have he' := List.isEmpty_eq_false.mpr he
        have hres : search_data d q = SearchResult.error
            (yearErrs (pyStrip q.releaseDate) ++ ratingErrs (pyStrip q.rating)) := by
          rw [search_data_eq d q ha]
          simp [he']
        have hnm := noResults_notin_errs (pyStrip q.releaseDate) (pyStrip q.rating)
        constructor
        · constructor
          · intro hc
            rw [hres] at hc
            injection hc with h1
            rw [h1] at hnm
            exact absurd (List.mem_singleton.mpr rfl) hnm
          · rintro ⟨-, hy, hr, -⟩
            exact absurd (by rw [hy, hr]; rfl) he
        · intro msgs hc hmem
          rw [hres] at hc
          injection hc with h1
          rw [h1] at hnm
          exact absurd hmem hnm

/-- Witness for C7: the spec scenario `{title:"Avatar"}` over `[inception]`
is well-formed and matches nothing, so the result is exactly NoResults. -/
theorem noResults_characterization_witness :
    search_data [inception] qAvatar = SearchResult.error [msgNoResults] :=
  (noResults_characterization [inception] qAvatar).1.mpr
    ⟨by decide, by decide, by decide, by decide⟩

/-- C8: for a well-formed query, the progressive filtering of the source
(reassigning the working dataset after each field) returns exactly the
records satisfying the logical AND of all active predicates — as a single
pass with one combined predicate would — and the returned rows are a
sublist of the dataset, hence appear in original order. -/
theorem progressive_equals_combined (d : List Record) (q : Query)
    (ha : allEmpty q = false)
    (hy : yearErrs (pyStrip q.releaseDate) = [])
    (hr : ratingErrs (pyStrip q.rating) = [])
    (hne : d.filter (specPred q) ≠ []) :
    search_data d q = SearchResult.results (d.filter (specPred q)) ∧
    (d.filter (specPred q)).Sublist d ∧
    (∀ r, r ∈ d.filter (specPred q) ↔ r ∈ d ∧ specPred q r = true) := by
  have hAF := applyFilters_eq_filter d q hy hr
  have hf' : (applyFilters d q).isEmpty = false := by
    rw [hAF]
    exact List.isEmpty_eq_false.mpr hne
  refine ⟨?_, List.filter_sublist d, fun r => List.mem_filter⟩
  have hf2 : (List.filter (specPred q) d).isEmpty = false := List.isEmpty_eq_false.mpr hne
  rw [search_data_eq d q ha, hAF]
  simp only [hy, hr, List.nil_append, List.isEmpty_nil, Bool.not_true, Bool.false_or, hf2,
    Bool.false_eq_true, if_false]

/-- Witness for C8 at `[inception]` and the query `{year:"2010", rating:"8"}`. -/
theorem progressive_equals_combined_witness :
    search_data [inception] qYearRating =
      SearchResult.results ([inception].filter (specPred qYearRating)) :=
  (progressive_equals_combined [inception] qYearRating
    (by decide) (by decide) (by decide) (by decide)).1

/-- C9: `search_data` is a pure function of its two arguments — the source
only rebinds `filtered_data` to fresh pandas views and never mutates the
loaded frame — so invoking it twice with the same dataset and query gives
identical outcomes, and in the success case the same rows at every index. -/
theorem search_deterministic (d : List Record) (q : Query) (o1 o2 : SearchResult)
    (h1 : search_data d q = o1) (h2 : search_data d q = o2) :
    o1 = o2 ∧
    ∀ l1 l2, o1 = SearchResult.results l1 → o2 = SearchResult.results l2 →
      l1.length = l2.length ∧
      ∀ (i : Nat) (hi : i < l1.length) (hj : i < l2.length),
        l1.get ⟨i, hi⟩ = l2.get ⟨i, hj⟩ := by
  subst h1
  subst h2
  refine ⟨rfl, ?_⟩
  intro l1 l2 e1 e2
  rw [e1] at e2
  injection e2 with h
  subst h
  exact ⟨rfl, fun i hi hj => rfl⟩

/-- Witness for C9: two runs at `[inception]` with `{year:"2010", rating:"8"}`. -/
theorem search_deterministic_witness :
    SearchResult.results [inception] = SearchResult.results [inception] :=
  (search_deterministic [inception] qYearRating
    (SearchResult.results [inception]) (SearchResult.results [inception])
    (by decide) (by decide)).1

/-- C10: a record whose title, genre, actors or director cell is missing
(`NaN`, modelled as `none`) is excluded by every non-empty query on that
attribute — `na=False` turns a missing value into a non-match instead of
an error or an empty-string match. -/
theorem nan_text_excluded (s : String) (r : Record) (d : List Record) (hs : s ≠ "") :
    containsFilter s none = false ∧
    (r.title = none → r ∉ applyContains s Record.title d) ∧
    (r.genre = none → r ∉ applyContains s Record.genre d) ∧
    (r.actors = none → r ∉ applyContains s Record.actors d) ∧
    (r.director = none → r ∉ applyContains s Record.director d) := by
  have hs' : (s == "") = false := beq_eq_false_iff_ne.mpr hs
  have key : ∀ (attr : Record → Option String), attr r = none →
      r ∉ applyContains s attr d := by
    intro attr hnone hmem
    unfold applyContains at hmem
    simp only [hs', Bool.false_eq_true, if_false] at hmem
    rcases List.mem_filter.mp hmem with ⟨-, hg⟩
    rw [hnone] at hg
    simp [containsFilter] at hg
  exact ⟨rfl, key Record.title, key Record.genre, key Record.actors, key Record.director⟩

/-- A record like `inception` but with a missing (NaN) title cell. -/
def noTitleRecord : Record := { inception with title := none }

/-- Witness for C10: the `"matrix"` title query excludes the NaN-titled record. -/
theorem nan_text_excluded_witness :
    noTitleRecord ∉ applyContains "matrix" Record.title [noTitleRecord] :=
  (nan_text_excluded "matrix" noTitleRecord [noTitleRecord] (by decide)).2.1 rfl
